import Mathlib

/-! Shallow embedding of the asynchronous location-ingestion pipeline of the
go-multi-tenant-system repository: the dead-letter retry consumer
(services/retry-consumer/main.go), the bus consumer with its dead-letter
store (streaming service kafka consumer), and the location-update HTTP
handler with its bounded kafka producer queue (location service handlers and
kafka worker pool).  Wall-clock instants are modelled as integer seconds,
Go float64 coordinates as rationals, UUID columns as strings, and nullable
columns as options.  Infrastructure faults (database connection errors,
cache outages) are outside the model; the functions below embed the
deterministic logic the Go code performs once its queries return. -/

/-- Outcome of one external HTTP POST as observed through the Go http.Client:
either a response carrying a status code, or a transport failure (network
error or timeout) whose message is the client error text. -/
inductive HTTPOutcome where
  | response : Nat → HTTPOutcome
  | netFailure : String → HTTPOutcome
deriving DecidableEq, Repr

/-- Row of the failed_location_updates table, as declared by the
FailedLocationUpdate struct in services/retry-consumer/main.go (the
streaming service declares the same shape with string-typed ids). -/
structure FailedLocationUpdate where
  id : String
  originalEventID : String
  tenantID : String
  userID : String
  sessionID : Option String
  latitude : Option ℚ
  longitude : Option ℚ
  errorMessage : String
  retryCount : Nat
  status : String
  nextRetryAt : Option Int
  createdAt : Int
  updatedAt : Int
  resolvedAt : Option Int
deriving DecidableEq, Repr

/-- Boolean test that the first character list is a prefix of the second. -/
def hasPrefixB : List Char → List Char → Bool
  | [], _ => true
  | _ :: _, [] => false
  | a :: as, b :: bs => a == b && hasPrefixB as bs

/-- Boolean test that the first character list occurs contiguously inside the
second. -/
def containsSub (needle : List Char) : List Char → Bool
  | [] => needle.isEmpty
  | c :: rest => hasPrefixB needle (c :: rest) || containsSub needle rest

/-- Case-insensitive substring test on strings, used to state the informal
requirement that an error reason "contains" a given phrase. -/
def lowerContains (needle hay : String) : Bool :=
  containsSub (needle.data.map Char.toLower) (hay.data.map Char.toLower)

/-- Canonical 8-4-4-4-12 textual form accepted by uuid.Parse.  The Go parser
additionally accepts rarer encodings (urn prefixes, braces, 32 hex digits);
every uuid the system itself prints is in canonical form, so the claims only
exercise the canonical/invalid distinction. -/
def isCanonicalUUID (s : String) : Bool :=
  s.data.length == 36 &&
  s.data.enum.all fun p =>
    if p.1 == 8 || p.1 == 13 || p.1 == 18 || p.1 == 23 then p.2 == '-'
    else p.2.isDigit || (97 ≤ p.2.toNat && p.2.toNat ≤ 102) ||
         (65 ≤ p.2.toNat && p.2.toNat ≤ 70)

namespace RetryConsumer

/-- LocationEvent struct of services/retry-consumer/main.go (the event body
rebuilt from a dead-letter row for the retry POST). -/
structure LocationEvent where
  id : String
  tenantID : String
  userID : String
  sessionID : String
  latitude : ℚ
  longitude : ℚ
  timestamp : Int
  eventType : String
deriving DecidableEq, Repr

/-- maxRetries field set in NewRetryConsumer. -/
def maxRetries : Nat := 8

/-- batchSize field set in NewRetryConsumer. -/
def batchSize : Nat := 100

/-- sendToThirdParty of services/retry-consumer/main.go reduced to its
observable outcome: it returns nil exactly on a 2xx response, a wrapped
transport error on a failed request, and a status error otherwise. -/
def sendToThirdParty (outcome : HTTPOutcome) : Option String :=
  match outcome with
  | HTTPOutcome.netFailure msg => some ("failed to send location update: " ++ msg)
  | HTTPOutcome.response code =>
      if 200 ≤ code && code < 300 then none
      else some ("third-party returned status " ++ toString code)

/-- markResolved of services/retry-consumer/main.go. -/
def markResolved (now : Int) (failed : FailedLocationUpdate) : FailedLocationUpdate :=
  { failed with
      status := "resolved"
      updatedAt := now
      resolvedAt := some now }

/-- markPermanentlyFailed of services/retry-consumer/main.go. -/
def markPermanentlyFailed (now : Int) (failed : FailedLocationUpdate)
    (reason : String) : FailedLocationUpdate :=
  { failed with
      status := "permanently_failed"
      updatedAt := now
      resolvedAt := some now
      errorMessage := reason }

/-- updateRetryStatus of services/retry-consumer/main.go: increment the retry
count; at or above maxRetries mark the row permanently failed, otherwise
reschedule it with exponential backoff of one minute times
2 ^ (retryCount - 1) and leave every other field (in particular status)
unchanged. -/
def updateRetryStatus (now : Int) (failed : FailedLocationUpdate)
    (errMsg : String) : FailedLocationUpdate :=
  let rc := failed.retryCount + 1
  if maxRetries ≤ rc then
    { failed with
        retryCount := rc
        updatedAt := now
        status := "permanently_failed"
        resolvedAt := some now
        errorMessage := "Max retries reached: " ++ errMsg }
  else
    { failed with
        retryCount := rc
        updatedAt := now
        nextRetryAt := some (now + 60 * 2 ^ (rc - 1))
        errorMessage := errMsg }

/-- Event rebuilt from a dead-letter row by retryFailedUpdate (lines 172-192
of services/retry-consumer/main.go): optional session, latitude and
longitude fall back to the zero value, the timestamp is the current time. -/
def rebuildEvent (now : Int) (failed : FailedLocationUpdate) : LocationEvent :=
  { id := failed.originalEventID
    tenantID := failed.tenantID
    userID := failed.userID
    sessionID := failed.sessionID.getD ""
    latitude := failed.latitude.getD 0
    longitude := failed.longitude.getD 0
    timestamp := now
    eventType := "location_update" }

/-- Observable action performed by the retry step against the outside world:
an external POST of a rebuilt event, or a database write of a row state. -/
inductive RetryAction where
  | post : LocationEvent → RetryAction
  | save : FailedLocationUpdate → RetryAction
deriving DecidableEq, Repr

/-- Tail of retryFailedUpdate after the session gate: rebuild the event, POST
it, then save either the resolved row or the rescheduled row. -/
def retryAttempt (now : Int) (outcome : HTTPOutcome)
    (failed : FailedLocationUpdate) : List RetryAction :=
  let event := rebuildEvent now failed
  match sendToThirdParty outcome with
  | some msg => [RetryAction.post event, RetryAction.save (updateRetryStatus now failed msg)]
  | none => [RetryAction.post event, RetryAction.save (markResolved now failed)]

/-- retryFailedUpdate of services/retry-consumer/main.go as the ordered list
of actions it performs.  The session check reads the status column with a
gorm Scan; Scan reports no error when the query matches no row and leaves
the destination string at its zero value, so a missing session yields the
status "" and takes the not-active branch (the separate err branch of the
Go code fires only on infrastructure failures, which are outside the
model). -/
def retryFailedUpdate (now : Int) (sessionStatusOf : String → Option String)
    (outcome : HTTPOutcome) (failed : FailedLocationUpdate) : List RetryAction :=
  match failed.sessionID with
  | some sid =>
      let sessionStatus := (sessionStatusOf sid).getD ""
      if sessionStatus ≠ "active" then
        [RetryAction.save (markPermanentlyFailed now failed
          ("Session inactive (status: " ++ sessionStatus ++ ")"))]
      else retryAttempt now outcome failed
  | none => retryAttempt now outcome failed

/-- Due-work predicate of the sweep query in ProcessFailedUpdates:
status = 'pending' AND next_retry_at <= now (a NULL next_retry_at matches
nothing, exactly as in SQL). -/
def isDue (now : Int) (r : FailedLocationUpdate) : Bool :=
  r.status == "pending" &&
    match r.nextRetryAt with
    | some t => decide (t ≤ now)
    | none => false

/-- Comparator of the sweep query: ORDER BY created_at DESC. -/
def createdDesc (a b : FailedLocationUpdate) : Bool :=
  decide (b.createdAt ≤ a.createdAt)

/-- Batch selected by one sweep of ProcessFailedUpdates: the pending rows
whose next_retry_at has passed, newest created_at first, limited to
batchSize. -/
def sweepSelect (now : Int) (rows : List FailedLocationUpdate) :
    List FailedLocationUpdate :=
  List.take batchSize ((rows.filter (isDue now)).mergeSort createdDesc)

/-- Database writes contained in a trace of retry actions, in order. -/
def traceSaves (tr : List RetryAction) : List FailedLocationUpdate :=
  tr.filterMap fun a =>
    match a with
    | RetryAction.save r => some r
    | RetryAction.post _ => none

/-- Statuses written to the dead-letter table by a trace of retry actions. -/
def writesStatuses (tr : List RetryAction) : List String :=
  (traceSaves tr).map fun r => r.status

/-- Number of external POST attempts contained in a trace. -/
def tracePosts (tr : List RetryAction) : Nat :=
  (tr.filter fun a =>
    match a with
    | RetryAction.post _ => true
    | RetryAction.save _ => false).length

/-- All database writes performed by one sweep of ProcessFailedUpdates: the
loop body runs retryFailedUpdate on every selected row (outcomeOf gives the
external POST outcome each row would observe). -/
def sweepWrites (now : Int) (sessionStatusOf : String → Option String)
    (outcomeOf : FailedLocationUpdate → HTTPOutcome)
    (rows : List FailedLocationUpdate) : List FailedLocationUpdate :=
  (sweepSelect now rows).flatMap fun r =>
    traceSaves (retryFailedUpdate now sessionStatusOf (outcomeOf r) r)

end RetryConsumer

namespace Streaming

/-- LocationEvent struct decoded from a bus message by the streaming
service (kafka consumer). -/
structure LocationEvent where
  id : String
  tenantID : String
  userID : String
  sessionID : String
  latitude : ℚ
  longitude : ℚ
  timestamp : Int
  eventType : String
deriving DecidableEq, Repr

/-- SendLocationUpdate of services/streaming/third_party.go reduced to its
observable outcome: nil exactly on a 2xx response, a wrapped transport
error on a failed request, a status error otherwise. -/
def SendLocationUpdate (outcome : HTTPOutcome) : Option String :=
  match outcome with
  | HTTPOutcome.netFailure msg => some ("failed to send location update: " ++ msg)
  | HTTPOutcome.response code =>
      if 200 ≤ code && code < 300 then none
      else some ("third-party returned status " ++ toString code)

/-- storeFailedUpdate of the streaming kafka consumer: parse the tenant id
(an unparseable tenant id aborts the insert and only logs), keep the session
id only when it is non-empty and parses, and insert a fresh pending row with
retry count 0 and next retry one minute out.  newID stands for the uuid the
Go code generates for the row. -/
def storeFailedUpdate (now : Int) (newID : String) (event : LocationEvent)
    (errMsg : String) : Option FailedLocationUpdate :=
  if ¬ isCanonicalUUID event.tenantID then none
  else
    some
      { id := newID
        originalEventID := event.id
        tenantID := event.tenantID
        userID := event.userID
        sessionID :=
          if event.sessionID ≠ "" && isCanonicalUUID event.sessionID then
            some event.sessionID
          else none
        latitude := some event.latitude
        longitude := some event.longitude
        errorMessage := errMsg
        retryCount := 0
        status := "pending"
        nextRetryAt := some (now + 60)
        createdAt := now
        updatedAt := now
        resolvedAt := none }

/-- Per-message body of ConsumeLocationUpdates after a successful decode:
attempt the third-party POST; on error store a dead-letter row (none means
no row was inserted). -/
def consumeDecodedEvent (now : Int) (newID : String) (event : LocationEvent)
    (outcome : HTTPOutcome) : Option FailedLocationUpdate :=
  match SendLocationUpdate outcome with
  | none => none
  | some msg => storeFailedUpdate now newID event msg

end Streaming

namespace Models

/-- LocationSession model of shared/models (location_sessions table). -/
structure LocationSession where
  id : String
  tenantID : String
  cognitoUserID : String
  status : String
  startedAt : Int
  endedAt : Option Int
  duration : Int
  createdAt : Int
  updatedAt : Int
deriving DecidableEq, Repr

/-- GetDuration of shared/models: seconds from start to end when ended,
otherwise seconds from start to now. -/
def GetDuration (now : Int) (s : LocationSession) : Int :=
  match s.endedAt with
  | some e => e - s.startedAt
  | none => now - s.startedAt

/-- EndSession of shared/models: stamp the end time, set the status to
"ended" (the constant SessionStatusEnded), and overwrite the duration with
the elapsed seconds. -/
def EndSession (now : Int) (s : LocationSession) : LocationSession :=
  let s1 := { s with endedAt := some now, status := "ended" }
  { s1 with duration := GetDuration now s1 }

/-- Location model of shared/models (locations table). -/
structure Location where
  id : String
  tenantID : String
  sessionID : String
  cognitoUserID : String
  latitude : ℚ
  longitude : ℚ
  timestamp : Int
deriving DecidableEq, Repr

end Models

namespace LocationService

open Models

/-- LocationEvent struct of the location service handlers (the event sent to
the bus by the producer worker pool). -/
structure LocationEvent where
  id : String
  tenantID : String
  cognitoUserID : String
  sessionID : String
  latitude : ℚ
  longitude : ℚ
  timestamp : Int
  eventType : String
deriving DecidableEq, Repr

/-- Capacity of the buffered location event channel created in
NewKafkaProducer (make(chan LocationEvent, 1000)). -/
def queueCapacity : Nat := 1000

/-- SendLocationEvent of the worker-pool kafka producer: a select with a
default branch on the buffered channel, so the enqueue never blocks; when
the channel is full the event is dropped and an error is returned, otherwise
the event is appended to the queue. -/
def SendLocationEvent (queue : List LocationEvent) (event : LocationEvent) :
    List LocationEvent × Option String :=
  if queue.length < queueCapacity then (queue ++ [event], none)
  else (queue, some "location event queue full, event dropped")

/-- Textual form of the zero uuid.UUID value. -/
def nilUUID : String := "00000000-0000-0000-0000-000000000000"

/-- JSON body of POST /update after decoding, before binding validation.
A field absent from the JSON leaves the Go struct field at its zero value,
which the options model as none. -/
structure LocationUpdateBody where
  sessionID : Option String
  latitude : Option ℚ
  longitude : Option ℚ
  timestamp : Option Int
deriving DecidableEq, Repr

/-- LocationUpdateRequest after a successful bind. -/
structure LocationUpdateRequest where
  sessionID : String
  latitude : ℚ
  longitude : ℚ
  timestamp : Option Int
deriving DecidableEq, Repr

/-- ShouldBindJSON with the binding tags of LocationUpdateRequest: session_id,
latitude and longitude carry the tag required, and the validator treats the
zero value of a field as missing, so a zero uuid, a latitude of 0 or a
longitude of 0 fail the bind exactly as an absent field does; timestamp has
no tag and stays optional. -/
def bindLocationUpdateRequest (b : LocationUpdateBody) :
    Option LocationUpdateRequest :=
  let sid := b.sessionID.getD nilUUID
  let lat := b.latitude.getD 0
  let lon := b.longitude.getD 0
  if sid == nilUUID || lat == 0 || lon == 0 then none
  else some { sessionID := sid, latitude := lat, longitude := lon, timestamp := b.timestamp }

/-- Constraint checked by the locations table of 001_schema.sql: the insert
succeeds only under locations_latitude_check (latitude in [-90, 90]) and
locations_longitude_check (longitude in [-180, 180]). -/
def locationInsertOk (loc : Location) : Bool :=
  decide (-90 ≤ loc.latitude) && decide (loc.latitude ≤ 90) &&
  decide (-180 ≤ loc.longitude) && decide (loc.longitude ≤ 180)

/-- Inputs of one handleLocationUpdate call that the Go code obtains from the
authenticated context and from its collaborators: the current time, the
authenticated user and tenant, whether the tenant id parses as a uuid, the
cached session for the requested key (none on a cache miss or an unmarshal
failure), the database lookup result for (id, user, tenant, status active),
the uuid generated for a new location row, and the current producer queue. -/
structure HandlerEnv where
  now : Int
  userID : String
  tenantID : String
  tenantParses : Bool
  cacheValue : Option LocationSession
  dbFindActive : Option LocationSession
  newLocationID : String
  kafkaQueue : List LocationEvent
deriving Repr

/-- Observable result of one handleLocationUpdate call: HTTP status and
message, whether any session lookup (cache or database) was consulted, the
session row written back (the expiry path), whether the cache entry was
deleted, the location row inserted, the producer queue afterwards, and
whether the event was dropped by a full queue. -/
structure HandlerResult where
  status : Nat
  message : String
  sessionLookedUp : Bool
  savedSession : Option LocationSession
  cacheInvalidated : Bool
  insertedLocation : Option Location
  kafkaQueue : List LocationEvent
  eventDropped : Bool
deriving DecidableEq, Repr

/-- handleLocationUpdate of the location handlers (cache-first variant):
bind the body, parse the tenant, resolve the session through the cache (a
hit must match user and tenant or it is treated as a miss) with a database
fallback, reject expired sessions by auto-ending them and invalidating the
cache, insert the location (subject to the schema range constraints), and
enqueue the event non-blockingly, ignoring a drop.  The cache write-back on
a database hit and the 500 branches for infrastructure faults are outside
the model. -/
def handleLocationUpdate (env : HandlerEnv) (body : LocationUpdateBody) :
    HandlerResult :=
  match bindLocationUpdateRequest body with
  | none =>
      { status := 400, message := "Invalid request format",
        sessionLookedUp := false, savedSession := none,
        cacheInvalidated := false, insertedLocation := none,
        kafkaQueue := env.kafkaQueue, eventDropped := false }
  | some req =>
    if ¬ env.tenantParses then
      { status := 400, message := "Invalid tenant ID",
        sessionLookedUp := false, savedSession := none,
        cacheInvalidated := false, insertedLocation := none,
        kafkaQueue := env.kafkaQueue, eventDropped := false }
    else
      let cachedOk : Option LocationSession :=
        match env.cacheValue with
        | some s =>
            if s.cognitoUserID == env.userID && s.tenantID == env.tenantID then
              some s
            else none
        | none => none
      let sessionRes : Option LocationSession :=
        match cachedOk with
        | some s => some s
        | none => env.dbFindActive
      match sessionRes with
      | none =>
          { status := 404, message := "Active session not found",
            sessionLookedUp := true, savedSession := none,
            cacheInvalidated := false, insertedLocation := none,
            kafkaQueue := env.kafkaQueue, eventDropped := false }
      | some session =>
        if env.now - session.startedAt > session.duration then
          { status := 400, message := "Session has expired",
            sessionLookedUp := true,
            savedSession := some (EndSession env.now session),
            cacheInvalidated := true, insertedLocation := none,
            kafkaQueue := env.kafkaQueue, eventDropped := false }
        else
          let timestamp := req.timestamp.getD env.now
          let location : Location :=
            { id := env.newLocationID
              tenantID := env.tenantID
              sessionID := req.sessionID
              cognitoUserID := env.userID
              latitude := req.latitude
              longitude := req.longitude
              timestamp := timestamp }
          if ¬ locationInsertOk location then
            { status := 500, message := "Failed to save location",
              sessionLookedUp := true, savedSession := none,
              cacheInvalidated := false, insertedLocation := none,
              kafkaQueue := env.kafkaQueue, eventDropped := false }
          else
            let event : LocationEvent :=
              { id := location.id
                tenantID := env.tenantID
                cognitoUserID := env.userID
                sessionID := req.sessionID
                latitude := req.latitude
                longitude := req.longitude
                timestamp := timestamp
                eventType := "location_update" }
            let sendRes := SendLocationEvent env.kafkaQueue event
            { status := 200, message := "Location updated successfully",
              sessionLookedUp := true, savedSession := none,
              cacheInvalidated := false, insertedLocation := some location,
              kafkaQueue := sendRes.1, eventDropped := sendRes.2.isSome }

end LocationService

/-- Dead-letter row used as a concrete instance: pending, due, referencing
session s-1. -/
def demoDL1 : FailedLocationUpdate :=
  { id := "dl-1"
    originalEventID := "ev-1"
    tenantID := "11111111-1111-1111-1111-111111111111"
    userID := "user-1"
    sessionID := some "s-1"
    latitude := some 40
    longitude := some (-74)
    errorMessage := "third-party returned status 500"
    retryCount := 0
    status := "pending"
    nextRetryAt := some 0
    createdAt := 0
    updatedAt := 0
    resolvedAt := none }

/-- Session-status lookup answering "ended" for every id. -/
def demoStatusEnded : String → Option String := fun _ => some "ended"

/-- Session-status lookup answering "active" for every id. -/
def demoStatusActive : String → Option String := fun _ => some "active"

/-- Dead-letter row one failure away from the retry ceiling. -/
def demoDL7 : FailedLocationUpdate :=
  { demoDL1 with id := "dl-7", retryCount := 7 }

/-- Dead-letter row already resolved, used to exercise terminal permanence. -/
def demoDLResolved : FailedLocationUpdate :=
  { demoDL1 with id := "dl-r", status := "resolved", resolvedAt := some 0 }

/-- Small dead-letter table holding one pending and one resolved row. -/
def demoRows : List FailedLocationUpdate := [demoDLResolved, demoDL1]

/-- Active session of one second duration started at time 0. -/
def demoSessionS2 : Models.LocationSession :=
  { id := "s-2", tenantID := "t-1", cognitoUserID := "user-1", status := "active",
    startedAt := 0, endedAt := none, duration := 1, createdAt := 0, updatedAt := 0 }

/-- Active session of default duration started at time 0. -/
def demoSessionS3 : Models.LocationSession :=
  { id := "s-3", tenantID := "t-1", cognitoUserID := "user-1", status := "active",
    startedAt := 0, endedAt := none, duration := 600, createdAt := 0, updatedAt := 0 }

/-- Handler environment whose cache holds the one-second session, observed
two seconds after its start. -/
def demoEnvExpired : LocationService.HandlerEnv :=
  { now := 2, userID := "user-1", tenantID := "t-1", tenantParses := true,
    cacheValue := some demoSessionS2, dbFindActive := none,
    newLocationID := "loc-1", kafkaQueue := [] }

/-- Handler environment resolving the fresh session s-3 from the database. -/
def demoEnvFresh : LocationService.HandlerEnv :=
  { now := 2, userID := "user-1", tenantID := "t-1", tenantParses := true,
    cacheValue := none, dbFindActive := some demoSessionS3,
    newLocationID := "loc-2", kafkaQueue := [] }

/-- Well-formed update body for session s-2. -/
def demoBodyOk : LocationService.LocationUpdateBody :=
  { sessionID := some "s-2", latitude := some 40, longitude := some (-74),
    timestamp := none }

/-- Update body whose latitude lies outside the geographic range. -/
def demoBodyLat91 : LocationService.LocationUpdateBody :=
  { sessionID := some "s-3", latitude := some 91, longitude := some 10,
    timestamp := none }

/-- Update body carrying the geographically valid latitude 0. -/
def demoBodyLat0 : LocationService.LocationUpdateBody :=
  { sessionID := some "s-3", latitude := some 0, longitude := some 5,
    timestamp := none }

/-- Producer event used to fill the demo queue. -/
def demoEventK : LocationService.LocationEvent :=
  { id := "loc-0", tenantID := "t-1", cognitoUserID := "user-1",
    sessionID := "s-3", latitude := 40, longitude := -74, timestamp := 1,
    eventType := "location_update" }

/-- Well-formed update body for session s-3. -/
def demoBodyS3 : LocationService.LocationUpdateBody :=
  { sessionID := some "s-3", latitude := some 40, longitude := some (-74),
    timestamp := none }

/-- Producer queue filled to its capacity. -/
def demoFullQueue : List LocationService.LocationEvent :=
  List.replicate 1000 demoEventK

/-- Handler environment like demoEnvFresh but with a saturated producer
queue. -/
def demoEnvFullQueue : LocationService.HandlerEnv :=
  { demoEnvFresh with kafkaQueue := demoFullQueue, newLocationID := "loc-3" }

/-- Decoded bus event whose tenant id is not a uuid. -/
def demoBadEvent : Streaming.LocationEvent :=
  { id := "ev-2", tenantID := "not-a-uuid", userID := "user-1", sessionID := "",
    latitude := 1, longitude := 2, timestamp := 0,
    eventType := "location_update" }

/-- Decoded bus event with a canonical tenant uuid. -/
def demoGoodEvent : Streaming.LocationEvent :=
  { id := "ev-3", tenantID := "11111111-1111-1111-1111-111111111111",
    userID := "user-1", sessionID := "", latitude := 1, longitude := 2,
    timestamp := 0, eventType := "location_update" }

/-- Helper: a list is a prefix of itself followed by anything. -/
theorem hasPrefixB_append (xs ys : List Char) : hasPrefixB xs (xs ++ ys) = true := by
  induction xs with
  | nil => rfl
  | cons a as ih => simp [hasPrefixB, ih]

/-- Helper: a prefix occurrence is an occurrence. -/
theorem containsSub_of_hasPrefixB (needle hay : List Char)
    (h : hasPrefixB needle hay = true) : containsSub needle hay = true := by
  cases hay with
  | nil =>
    cases needle with
    | nil => rfl
    | cons a as => simp [hasPrefixB] at h
  | cons c rest => simp [containsSub, h]

/-- Helper: every reason string produced by the session gate contains
"session inactive" up to case. -/
theorem lowerContains_sessionInactive (s : String) :
    lowerContains "session inactive"
      ("Session inactive (status: " ++ s ++ ")") = true := by
  unfold lowerContains
  rw [String.data_append, String.data_append, List.map_append, List.map_append]
  have h1 : "Session inactive (status: ".data.map Char.toLower
      = "session inactive".data.map Char.toLower ++ " (status: ".data.map Char.toLower := by
    decide
  rw [h1, List.append_assoc, List.append_assoc]
  exact containsSub_of_hasPrefixB _ _ (hasPrefixB_append _ _)

/-- C1: a dead-letter row selected by the sweep whose referenced session is
missing or not active is marked permanently_failed with a reason that
contains (case-insensitively) "session inactive", and the retry step
performs no external POST for it: the whole trace is the single terminal
save. -/
theorem C1_session_gate_no_post (now : Int)
    (sessionStatusOf : String → Option String) (outcome : HTTPOutcome)
    (failed : FailedLocationUpdate) (sid : String)
    (hsid : failed.sessionID = some sid)
    (hinactive : (sessionStatusOf sid).getD "" ≠ "active") :
    RetryConsumer.retryFailedUpdate now sessionStatusOf outcome failed =
      [RetryConsumer.RetryAction.save (RetryConsumer.markPermanentlyFailed now failed
        ("Session inactive (status: " ++ (sessionStatusOf sid).getD "" ++ ")"))]
    ∧ RetryConsumer.tracePosts
        (RetryConsumer.retryFailedUpdate now sessionStatusOf outcome failed) = 0
    ∧ (RetryConsumer.markPermanentlyFailed now failed
        ("Session inactive (status: " ++ (sessionStatusOf sid).getD "" ++ ")")).status
        = "permanently_failed"
    ∧ lowerContains "session inactive"
        (RetryConsumer.markPermanentlyFailed now failed
          ("Session inactive (status: " ++ (sessionStatusOf sid).getD "" ++ ")")).errorMessage
        = true := by
  have hstep : RetryConsumer.retryFailedUpdate now sessionStatusOf outcome failed =
      [RetryConsumer.RetryAction.save (RetryConsumer.markPermanentlyFailed now failed
        ("Session inactive (status: " ++ (sessionStatusOf sid).getD "" ++ ")"))] := by
    unfold RetryConsumer.retryFailedUpdate
    rw [hsid]
    simp [hinactive]
  refine ⟨hstep, ?_, rfl, ?_⟩
  · rw [hstep]; rfl
  · exact lowerContains_sessionInactive ((sessionStatusOf sid).getD "")

/-- Witness for C1 at a concrete row whose session reports status "ended". -/
theorem C1_session_gate_no_post_witness :
    RetryConsumer.tracePosts
      (RetryConsumer.retryFailedUpdate 0 demoStatusEnded (HTTPOutcome.response 200) demoDL1) = 0
    ∧ lowerContains "session inactive"
        (RetryConsumer.markPermanentlyFailed 0 demoDL1
          ("Session inactive (status: " ++ (demoStatusEnded "s-1").getD "" ++ ")")).errorMessage
        = true :=
  ⟨(C1_session_gate_no_post 0 demoStatusEnded (HTTPOutcome.response 200) demoDL1 "s-1"
      rfl (by decide)).2.1,
   (C1_session_gate_no_post 0 demoStatusEnded (HTTPOutcome.response 200) demoDL1 "s-1"
      rfl (by decide)).2.2.2⟩

/-- C2: the retry step never claims a selected row before its external POST.
At a concrete due pending row with an active session, the trace opens with
the POST itself: the first database write comes only after it, and the only
status the step writes is the terminal one ("resolved" here) — no
conditional update to "retried" exists anywhere in the step, so a crash
mid-POST leaves the row in "pending". -/
theorem C2_post_without_claim :
    RetryConsumer.retryFailedUpdate 5 demoStatusActive (HTTPOutcome.response 200) demoDL1 =
      [RetryConsumer.RetryAction.post (RetryConsumer.rebuildEvent 5 demoDL1),
       RetryConsumer.RetryAction.save (RetryConsumer.markResolved 5 demoDL1)]
    ∧ RetryConsumer.writesStatuses
        (RetryConsumer.retryFailedUpdate 5 demoStatusActive (HTTPOutcome.response 200) demoDL1)
        = ["resolved"]
    ∧ "retried" ∉ RetryConsumer.writesStatuses
        (RetryConsumer.retryFailedUpdate 5 demoStatusActive (HTTPOutcome.response 200) demoDL1)
    ∧ (RetryConsumer.retryFailedUpdate 5 demoStatusActive (HTTPOutcome.response 200) demoDL1).head?
        = some (RetryConsumer.RetryAction.post (RetryConsumer.rebuildEvent 5 demoDL1))
    ∧ demoDL1.status = "pending" := by
  refine ⟨rfl, rfl, by decide, rfl, rfl⟩

/-- C3 counterexample: the listed 128-minute delay never occurs.  The only
failure that would compute a delay of 1 minute times 2 ^ 7 is the eighth
one, but that failure marks the row permanently_failed and leaves
next_retry_at untouched instead of rescheduling it. -/
theorem C3_backoff_counterexample :
    (RetryConsumer.updateRetryStatus 0 demoDL7 "third-party returned status 500").status
      = "permanently_failed"
    ∧ (RetryConsumer.updateRetryStatus 0 demoDL7 "third-party returned status 500").status
      ≠ "pending"
    ∧ (RetryConsumer.updateRetryStatus 0 demoDL7 "third-party returned status 500").nextRetryAt
      = some 0
    ∧ (RetryConsumer.updateRetryStatus 0 demoDL7 "third-party returned status 500").nextRetryAt
      ≠ some (0 + 60 * 2 ^ 7) := by
  refine ⟨rfl, by decide, rfl, by decide⟩

/-- C3 (amended): a failed POST whose incremented retry count k stays below
maxRetries leaves the row pending with next_retry_at = now + one minute
times 2 ^ (k - 1); since k ranges over 1..7 here, the successive delays are
1, 2, 4, 8, 16, 32, 64 minutes (the factor never reaches 128). -/
theorem C3_backoff_reschedule (now : Int) (failed : FailedLocationUpdate)
    (errMsg : String) (hpending : failed.status = "pending")
    (hbelow : failed.retryCount + 1 < RetryConsumer.maxRetries) :
    (RetryConsumer.updateRetryStatus now failed errMsg).status = "pending"
    ∧ (RetryConsumer.updateRetryStatus now failed errMsg).retryCount
        = failed.retryCount + 1
    ∧ (RetryConsumer.updateRetryStatus now failed errMsg).nextRetryAt
        = some (now + 60 * 2 ^ failed.retryCount)
    ∧ (RetryConsumer.updateRetryStatus now failed errMsg).errorMessage = errMsg
    ∧ (2 : Int) ^ failed.retryCount ≤ 64 := by
  have hnot : ¬ RetryConsumer.maxRetries ≤ failed.retryCount + 1 := not_le.mpr hbelow
  have hstep : RetryConsumer.updateRetryStatus now failed errMsg =
      { failed with
          retryCount := failed.retryCount + 1
          updatedAt := now
          nextRetryAt := some (now + 60 * 2 ^ (failed.retryCount + 1 - 1))
          errorMessage := errMsg } := by
    unfold RetryConsumer.updateRetryStatus
    rw [if_neg hnot]
  rw [hstep]
  refine ⟨hpending, rfl, by simp, rfl, ?_⟩
  have h6 : failed.retryCount ≤ 6 := by
    have : failed.retryCount + 1 < 8 := hbelow
    omega
  calc (2 : Int) ^ failed.retryCount ≤ 2 ^ 6 := by
        exact pow_le_pow_right₀ (by norm_num) h6
    _ = 64 := by norm_num

/-- Witness for C3 at a concrete pending row with retry count 0. -/
theorem C3_backoff_reschedule_witness :
    (RetryConsumer.updateRetryStatus 7 demoDL1 "e").status = "pending"
    ∧ (RetryConsumer.updateRetryStatus 7 demoDL1 "e").nextRetryAt
        = some (7 + 60 * 2 ^ demoDL1.retryCount) :=
  ⟨(C3_backoff_reschedule 7 demoDL1 "e" rfl (by decide)).1,
   (C3_backoff_reschedule 7 demoDL1 "e" rfl (by decide)).2.2.1⟩

/-- Helper: every row in a sweep batch comes from the table and satisfies the
due-work predicate. -/
theorem mem_sweepSelect_due (now : Int) (rows : List FailedLocationUpdate)
    (s : FailedLocationUpdate) (hs : s ∈ RetryConsumer.sweepSelect now rows) :
    s ∈ rows ∧ RetryConsumer.isDue now s = true := by
  unfold RetryConsumer.sweepSelect at hs
  have h1 : s ∈ (rows.filter (RetryConsumer.isDue now)).mergeSort RetryConsumer.createdDesc :=
    (List.take_sublist _ _).subset hs
  have h2 : s ∈ rows.filter (RetryConsumer.isDue now) :=
    (List.mergeSort_perm _ _).mem_iff.mp h1
  exact List.mem_filter.mp h2

/-- Helper: a due row has status pending. -/
theorem isDue_status (now : Int) (r : FailedLocationUpdate)
    (h : RetryConsumer.isDue now r = true) : r.status = "pending" := by
  unfold RetryConsumer.isDue at h
  have := (Bool.and_eq_true _ _).mp h
  exact eq_of_beq this.1

/-- Helper: updateRetryStatus preserves the row id. -/
theorem updateRetryStatus_id (now : Int) (failed : FailedLocationUpdate)
    (errMsg : String) :
    (RetryConsumer.updateRetryStatus now failed errMsg).id = failed.id := by
  unfold RetryConsumer.updateRetryStatus
  by_cases h : RetryConsumer.maxRetries ≤ failed.retryCount + 1 <;> simp [h]

/-- Helper: every database write of a retry step carries the id of the row it
was invoked on. -/
theorem traceSaves_id (now : Int) (sessionStatusOf : String → Option String)
    (outcome : HTTPOutcome) (failed w : FailedLocationUpdate)
    (hw : w ∈ RetryConsumer.traceSaves
      (RetryConsumer.retryFailedUpdate now sessionStatusOf outcome failed)) :
    w.id = failed.id := by
  have hattempt : ∀ v ∈ RetryConsumer.traceSaves
      (RetryConsumer.retryAttempt now outcome failed), v.id = failed.id := by
    intro v hv
    unfold RetryConsumer.retryAttempt at hv
    cases houtcome : RetryConsumer.sendToThirdParty outcome with
    | some msg =>
        rw [houtcome] at hv
        simp [RetryConsumer.traceSaves] at hv
        rw [hv]
        exact updateRetryStatus_id now failed msg
    | none =>
        rw [houtcome] at hv
        simp [RetryConsumer.traceSaves] at hv
        rw [hv]
        rfl
  cases hsid : failed.sessionID with
  | some sid =>
      by_cases hact : (sessionStatusOf sid).getD "" = "active"
      · have hstep : RetryConsumer.retryFailedUpdate now sessionStatusOf outcome failed
            = RetryConsumer.retryAttempt now outcome failed := by
          unfold RetryConsumer.retryFailedUpdate
          rw [hsid]
          simp [hact]
        rw [hstep] at hw
        exact hattempt w hw
      · have hstep : RetryConsumer.retryFailedUpdate now sessionStatusOf outcome failed
            = [RetryConsumer.RetryAction.save (RetryConsumer.markPermanentlyFailed now failed
                ("Session inactive (status: " ++ (sessionStatusOf sid).getD "" ++ ")"))] := by
          unfold RetryConsumer.retryFailedUpdate
          rw [hsid]
          simp [hact]
        rw [hstep] at hw
        simp [RetryConsumer.traceSaves] at hw
        rw [hw]
        rfl
  | none =>
      have hstep : RetryConsumer.retryFailedUpdate now sessionStatusOf outcome failed
          = RetryConsumer.retryAttempt now outcome failed := by
        unfold RetryConsumer.retryFailedUpdate
        rw [hsid]
      rw [hstep] at hw
      exact hattempt w hw

/-- C4: the eighth failure of a dead-letter row marks it permanently_failed
carrying the last error, and a terminal row (resolved or permanently_failed)
is never selected by a sweep nor targeted by any database write a sweep
performs. -/
theorem C4_terminal_permanence :
    (∀ (now : Int) (failed : FailedLocationUpdate) (errMsg : String),
        RetryConsumer.maxRetries ≤ failed.retryCount + 1 →
        (RetryConsumer.updateRetryStatus now failed errMsg).status = "permanently_failed"
        ∧ (RetryConsumer.updateRetryStatus now failed errMsg).errorMessage
            = "Max retries reached: " ++ errMsg
        ∧ (RetryConsumer.updateRetryStatus now failed errMsg).retryCount
            = failed.retryCount + 1
        ∧ (RetryConsumer.updateRetryStatus now failed errMsg).resolvedAt = some now)
    ∧ (∀ (now : Int) (rows : List FailedLocationUpdate)
          (sessionStatusOf : String → Option String)
          (outcomeOf : FailedLocationUpdate → HTTPOutcome)
          (r : FailedLocationUpdate), r ∈ rows →
          (r.status = "resolved" ∨ r.status = "permanently_failed") →
          r ∉ RetryConsumer.sweepSelect now rows
          ∧ ((rows.map FailedLocationUpdate.id).Nodup →
              ∀ w ∈ RetryConsumer.sweepWrites now sessionStatusOf outcomeOf rows,
                w.id ≠ r.id)) := by
  constructor
  · intro now failed errMsg hmax
    have hstep : RetryConsumer.updateRetryStatus now failed errMsg =
        { failed with
            retryCount := failed.retryCount + 1
            updatedAt := now
            status := "permanently_failed"
            resolvedAt := some now
            errorMessage := "Max retries reached: " ++ errMsg } := by
      unfold RetryConsumer.updateRetryStatus
      rw [if_pos hmax]
    rw [hstep]
    exact ⟨rfl, rfl, rfl, rfl⟩
  · intro now rows sessionStatusOf outcomeOf r hr hterm
    have hrstatus : r.status ≠ "pending" := by
      rcases hterm with h | h <;> rw [h] <;> decide
    have hnotsel : r ∉ RetryConsumer.sweepSelect now rows := by
      intro hsel
      exact hrstatus (isDue_status now r (mem_sweepSelect_due now rows r hsel).2)
    refine ⟨hnotsel, ?_⟩
    intro hnodup w hw
    unfold RetryConsumer.sweepWrites at hw
    rw [List.mem_flatMap] at hw
    obtain ⟨s, hsSel, hwTrace⟩ := hw
    have hsid : w.id = s.id := traceSaves_id now sessionStatusOf (outcomeOf s) s w hwTrace
    have hsrows := mem_sweepSelect_due now rows s hsSel
    have hspending : s.status = "pending" := isDue_status now s hsrows.2
    have hsr : s ≠ r := by
      intro he
      rw [he] at hspending
      exact hrstatus hspending
    rw [hsid]
    intro hid
    exact hsr (List.inj_on_of_nodup_map hnodup hsrows.1 hr hid)

/-- Witness for C4: the ceiling transition at a retry count of 7, and the
resolved demo row escaping the sweep over the demo table. -/
theorem C4_terminal_permanence_witness :
    (RetryConsumer.updateRetryStatus 0 demoDL7 "e").status = "permanently_failed"
    ∧ demoDLResolved ∉ RetryConsumer.sweepSelect 0 demoRows :=
  ⟨(C4_terminal_permanence.1 0 demoDL7 "e" (by decide)).1,
   (C4_terminal_permanence.2 0 demoRows demoStatusActive
      (fun _ => HTTPOutcome.response 200) demoDLResolved
      (List.mem_cons_self _ _) (Or.inl rfl)).1⟩

/-- C5: one sweep selects at most batchSize rows, each selected row is a
pending row of the table whose next_retry_at has passed, the batch is in
non-increasing created_at order, and whenever at most batchSize rows are
due the batch consists of exactly the due rows. -/
theorem C5_sweep_batch (now : Int) (rows : List FailedLocationUpdate) :
    (RetryConsumer.sweepSelect now rows).length ≤ RetryConsumer.batchSize
    ∧ (∀ r ∈ RetryConsumer.sweepSelect now rows,
        r ∈ rows ∧ RetryConsumer.isDue now r = true)
    ∧ List.Pairwise (fun a b => b.createdAt ≤ a.createdAt)
        (RetryConsumer.sweepSelect now rows)
    ∧ ((rows.filter (RetryConsumer.isDue now)).length ≤ RetryConsumer.batchSize →
        ∀ r, r ∈ RetryConsumer.sweepSelect now rows ↔
          r ∈ rows ∧ RetryConsumer.isDue now r = true) := by
  refine ⟨?_, ?_, ?_, ?_⟩
  · unfold RetryConsumer.sweepSelect
    rw [List.length_take]
    exact min_le_left _ _
  · intro r hr
    exact mem_sweepSelect_due now rows r hr
  · have hsort : List.Pairwise (fun a b => RetryConsumer.createdDesc a b = true)
        ((rows.filter (RetryConsumer.isDue now)).mergeSort RetryConsumer.createdDesc) := by
      apply List.sorted_mergeSort
      · intro a b c hab hbc
        have hab2 : b.createdAt ≤ a.createdAt := of_decide_eq_true hab
        have hbc2 : c.createdAt ≤ b.createdAt := of_decide_eq_true hbc
        exact decide_eq_true (le_trans hbc2 hab2)
      · intro a b
        rcases le_total b.createdAt a.createdAt with h | h
        · simp [RetryConsumer.createdDesc, h]
        · simp [RetryConsumer.createdDesc, h]
    have htake := List.Pairwise.sublist
      (List.take_sublist RetryConsumer.batchSize _) hsort
    exact htake.imp fun hab => of_decide_eq_true hab
  · intro hlen r
    have hall : RetryConsumer.sweepSelect now rows
        = (rows.filter (RetryConsumer.isDue now)).mergeSort RetryConsumer.createdDesc := by
      unfold RetryConsumer.sweepSelect
      apply List.take_of_length_le
      rw [(List.mergeSort_perm _ _).length_eq]
      exact hlen
    rw [hall, (List.mergeSort_perm _ _).mem_iff, List.mem_filter]

/-- Witness for C5 on the demo table: the batch bound, and the pending demo
row being selected exactly because it is due. -/
theorem C5_sweep_batch_witness :
    (RetryConsumer.sweepSelect 0 demoRows).length ≤ RetryConsumer.batchSize
    ∧ (demoDL1 ∈ RetryConsumer.sweepSelect 0 demoRows ↔
        demoDL1 ∈ demoRows ∧ RetryConsumer.isDue 0 demoDL1 = true) :=
  ⟨(C5_sweep_batch 0 demoRows).1,
   (C5_sweep_batch 0 demoRows).2.2.2 (by decide) demoDL1⟩

/-- C6: a location update against a session whose elapsed time exceeds its
duration is rejected with 400 "Session has expired" and the cache entry is
deleted, but the session row written back is the one produced by
EndSession, whose status is "ended" — not "expired" (the status constant
for expiry exists in the models yet is never assigned, and the schema check
constraint of 001_schema.sql does not even admit the value "ended"). -/
theorem C6_expired_session_marked_ended :
    (LocationService.handleLocationUpdate demoEnvExpired demoBodyOk).status = 400
    ∧ (LocationService.handleLocationUpdate demoEnvExpired demoBodyOk).message
        = "Session has expired"
    ∧ (LocationService.handleLocationUpdate demoEnvExpired demoBodyOk).cacheInvalidated = true
    ∧ (LocationService.handleLocationUpdate demoEnvExpired demoBodyOk).savedSession
        = some (Models.EndSession 2 demoSessionS2)
    ∧ (Models.EndSession 2 demoSessionS2).status = "ended"
    ∧ (Models.EndSession 2 demoSessionS2).status ≠ "expired"
    ∧ (LocationService.handleLocationUpdate demoEnvExpired demoBodyOk).insertedLocation
        = none := by
  refine ⟨rfl, rfl, rfl, rfl, rfl, by decide, rfl⟩

/-- C7 counterexample: a decoded event whose tenant id does not parse as a
uuid produces no dead-letter row even though the POST failed with a 500. -/
theorem C7_dlq_counterexample :
    Streaming.SendLocationUpdate (HTTPOutcome.response 500) ≠ none
    ∧ Streaming.consumeDecodedEvent 0 "dl-9" demoBadEvent (HTTPOutcome.response 500)
        = none :=
  ⟨by decide, by decide⟩

/-- C7 (amended): when the consumer POST of a decoded event fails (any
non-2xx, network failure or timeout) and the event carries a parseable
tenant id, a dead-letter row is inserted with retry count 0, status
pending and next_retry_at = now + one minute; a 2xx response inserts
nothing. -/
theorem C7_dlq_insert_on_failure (now : Int) (newID : String)
    (event : Streaming.LocationEvent) (outcome : HTTPOutcome) (msg : String)
    (htenant : isCanonicalUUID event.tenantID = true)
    (hfail : Streaming.SendLocationUpdate outcome = some msg) :
    Streaming.consumeDecodedEvent now newID event outcome
      = some
        { id := newID
          originalEventID := event.id
          tenantID := event.tenantID
          userID := event.userID
          sessionID :=
            if event.sessionID ≠ "" && isCanonicalUUID event.sessionID then
              some event.sessionID
            else none
          latitude := some event.latitude
          longitude := some event.longitude
          errorMessage := msg
          retryCount := 0
          status := "pending"
          nextRetryAt := some (now + 60)
          createdAt := now
          updatedAt := now
          resolvedAt := none }
    ∧ (∀ code : Nat, 200 ≤ code → code < 300 →
        Streaming.consumeDecodedEvent now newID event (HTTPOutcome.response code)
          = none) := by
  constructor
  · unfold Streaming.consumeDecodedEvent
    rw [hfail]
    unfold Streaming.storeFailedUpdate
    simp [htenant]
  · intro code h1 h2
    unfold Streaming.consumeDecodedEvent Streaming.SendLocationUpdate
    simp [h1, h2]

/-- Witness for C7 at a concrete event: a 500 inserts the pending row, a 204
inserts nothing. -/
theorem C7_dlq_insert_on_failure_witness :
    Streaming.consumeDecodedEvent 0 "dl-9" demoGoodEvent (HTTPOutcome.response 500)
      = some
        { id := "dl-9", originalEventID := "ev-3",
          tenantID := "11111111-1111-1111-1111-111111111111",
          userID := "user-1", sessionID := none, latitude := some 1,
          longitude := some 2,
          errorMessage := "third-party returned status 500",
          retryCount := 0, status := "pending", nextRetryAt := some (0 + 60),
          createdAt := 0, updatedAt := 0, resolvedAt := none }
    ∧ Streaming.consumeDecodedEvent 0 "dl-9" demoGoodEvent (HTTPOutcome.response 204)
        = none :=
  ⟨by
    have h := (C7_dlq_insert_on_failure 0 "dl-9" demoGoodEvent (HTTPOutcome.response 500)
      "third-party returned status 500" (by decide) (by decide)).1
    simpa using h,
   (C7_dlq_insert_on_failure 0 "dl-9" demoGoodEvent (HTTPOutcome.response 500)
      "third-party returned status 500" (by decide) (by decide)).2 204 (by decide) (by decide)⟩

/-- Helper: an out-of-range coordinate violates the schema check constraint
of the locations table. -/
theorem locationInsertOk_false (loc : Models.Location)
    (h : 90 < loc.latitude ∨ loc.latitude < -90 ∨
         180 < loc.longitude ∨ loc.longitude < -180) :
    LocationService.locationInsertOk loc = false := by
  unfold LocationService.locationInsertOk
  rcases h with h | h | h | h
  · simp [decide_eq_false (not_le.mpr h)]
  · simp [decide_eq_false (not_le.mpr h)]
  · simp [decide_eq_false (not_le.mpr h)]
  · simp [decide_eq_false (not_le.mpr h)]

/-- C8 counterexample: an authenticated update with latitude 91 against a
fresh active session is answered with 500 "Failed to save location" (the
insert fails the schema check constraint), not with 400. -/
theorem C8_bounds_counterexample :
    (LocationService.handleLocationUpdate demoEnvFresh demoBodyLat91).status = 500
    ∧ (LocationService.handleLocationUpdate demoEnvFresh demoBodyLat91).status ≠ 400
    ∧ (LocationService.handleLocationUpdate demoEnvFresh demoBodyLat91).message
        = "Failed to save location"
    ∧ (LocationService.handleLocationUpdate demoEnvFresh demoBodyLat91).insertedLocation
        = none := by
  refine ⟨rfl, by decide, rfl, rfl⟩

/-- C8 (amended): an update whose latitude or longitude lies outside the
geographic range and which reaches the insert step (bind succeeded, tenant
parsed, an active unexpired session resolved) persists no location row and
is answered with 500 "Failed to save location" coming from the database
check constraint — the handler itself performs no range validation and
never returns 400 for it. -/
theorem C8_out_of_range_500 (env : LocationService.HandlerEnv)
    (body : LocationService.LocationUpdateBody)
    (req : LocationService.LocationUpdateRequest)
    (session : Models.LocationSession)
    (hbind : LocationService.bindLocationUpdateRequest body = some req)
    (htenant : env.tenantParses = true)
    (hcache : env.cacheValue = none)
    (hdb : env.dbFindActive = some session)
    (hfresh : ¬ env.now - session.startedAt > session.duration)
    (hrange : 90 < req.latitude ∨ req.latitude < -90 ∨
              180 < req.longitude ∨ req.longitude < -180) :
    (LocationService.handleLocationUpdate env body).status = 500
    ∧ (LocationService.handleLocationUpdate env body).message
        = "Failed to save location"
    ∧ (LocationService.handleLocationUpdate env body).insertedLocation = none
    ∧ (LocationService.handleLocationUpdate env body).kafkaQueue = env.kafkaQueue := by
  have hins : LocationService.locationInsertOk
      { id := env.newLocationID, tenantID := env.tenantID,
        sessionID := req.sessionID, cognitoUserID := env.userID,
        latitude := req.latitude, longitude := req.longitude,
        timestamp := req.timestamp.getD env.now } = false :=
    locationInsertOk_false _ hrange
  refine ⟨?_, ?_, ?_, ?_⟩ <;>
    (unfold LocationService.handleLocationUpdate
     rw [hbind]
     simp [htenant, hcache, hdb, hfresh, hins])

/-- Witness for C8 at the concrete latitude-91 request. -/
theorem C8_out_of_range_500_witness :
    (LocationService.handleLocationUpdate demoEnvFresh demoBodyLat91).status = 500
    ∧ (LocationService.handleLocationUpdate demoEnvFresh demoBodyLat91).insertedLocation
        = none :=
  ⟨(C8_out_of_range_500 demoEnvFresh demoBodyLat91
      { sessionID := "s-3", latitude := 91, longitude := 10, timestamp := none }
      demoSessionS3 rfl rfl rfl rfl (by decide) (Or.inl (by norm_num))).1,
   (C8_out_of_range_500 demoEnvFresh demoBodyLat91
      { sessionID := "s-3", latitude := 91, longitude := 10, timestamp := none }
      demoSessionS3 rfl rfl rfl rfl (by decide) (Or.inl (by norm_num))).2.2.1⟩

/-- Helper: enqueue on a full producer queue drops the event. -/
theorem sendLocationEvent_full (queue : List LocationService.LocationEvent)
    (h : LocationService.queueCapacity ≤ queue.length)
    (event : LocationService.LocationEvent) :
    LocationService.SendLocationEvent queue event
      = (queue, some "location event queue full, event dropped") := by
  unfold LocationService.SendLocationEvent
  rw [if_neg (not_lt.mpr h)]

/-- Helper: enqueue on a queue with room appends the event. -/
theorem sendLocationEvent_room (queue : List LocationService.LocationEvent)
    (h : queue.length < LocationService.queueCapacity)
    (event : LocationService.LocationEvent) :
    LocationService.SendLocationEvent queue event = (queue ++ [event], none) := by
  unfold LocationService.SendLocationEvent
  rw [if_pos h]

/-- C9: the producer enqueue is a non-blocking bounded-queue insert — on a
full queue (capacity 1000) it returns the drop error and leaves the queue
unchanged, on a queue with room it appends the event — and a location
update that reaches the enqueue step still answers 200 with the location
row already inserted even when the queue is full, the drop being recorded
and the queue left unchanged. -/
theorem C9_bounded_queue_drop :
    (∀ (queue : List LocationService.LocationEvent)
       (event : LocationService.LocationEvent),
       LocationService.queueCapacity ≤ queue.length →
       LocationService.SendLocationEvent queue event
         = (queue, some "location event queue full, event dropped"))
    ∧ (∀ (queue : List LocationService.LocationEvent)
         (event : LocationService.LocationEvent),
         queue.length < LocationService.queueCapacity →
         LocationService.SendLocationEvent queue event = (queue ++ [event], none))
    ∧ (∀ (env : LocationService.HandlerEnv)
         (body : LocationService.LocationUpdateBody)
         (req : LocationService.LocationUpdateRequest)
         (session : Models.LocationSession),
         LocationService.bindLocationUpdateRequest body = some req →
         env.tenantParses = true →
         env.cacheValue = none →
         env.dbFindActive = some session →
         ¬ env.now - session.startedAt > session.duration →
         -90 ≤ req.latitude → req.latitude ≤ 90 →
         -180 ≤ req.longitude → req.longitude ≤ 180 →
         (LocationService.handleLocationUpdate env body).status = 200
         ∧ (LocationService.handleLocationUpdate env body).insertedLocation.isSome
             = true
         ∧ (LocationService.queueCapacity ≤ env.kafkaQueue.length →
             (LocationService.handleLocationUpdate env body).eventDropped = true
             ∧ (LocationService.handleLocationUpdate env body).kafkaQueue
                 = env.kafkaQueue)) := by
  refine ⟨fun queue event h => sendLocationEvent_full queue h event,
          fun queue event h => sendLocationEvent_room queue h event, ?_⟩
  intro env body req session hbind htenant hcache hdb hfresh hlat1 hlat2 hlon1 hlon2
  have hins : LocationService.locationInsertOk
      { id := env.newLocationID, tenantID := env.tenantID,
        sessionID := req.sessionID, cognitoUserID := env.userID,
        latitude := req.latitude, longitude := req.longitude,
        timestamp := req.timestamp.getD env.now } = true := by
    unfold LocationService.locationInsertOk
    simp only [Bool.and_eq_true, decide_eq_true_eq]
    exact ⟨⟨⟨hlat1, hlat2⟩, hlon1⟩, hlon2⟩
  refine ⟨?_, ?_, ?_⟩
  · unfold LocationService.handleLocationUpdate
    rw [hbind]
    simp [htenant, hcache, hdb, hfresh, hins]
  · unfold LocationService.handleLocationUpdate
    rw [hbind]
    simp [htenant, hcache, hdb, hfresh, hins]
  · intro hqfull
    unfold LocationService.handleLocationUpdate
    rw [hbind]
    simp [htenant, hcache, hdb, hfresh, hins, sendLocationEvent_full _ hqfull]

/-- Witness for C9: with the producer queue at capacity, the enqueue reports
the drop, and a concrete valid update still answers 200 with the drop
recorded and the queue unchanged. -/
theorem C9_bounded_queue_drop_witness :
    LocationService.SendLocationEvent demoFullQueue demoEventK
      = (demoFullQueue, some "location event queue full, event dropped")
    ∧ (LocationService.handleLocationUpdate demoEnvFullQueue demoBodyS3).status = 200
    ∧ (LocationService.handleLocationUpdate demoEnvFullQueue demoBodyS3).eventDropped
        = true
    ∧ (LocationService.handleLocationUpdate demoEnvFullQueue demoBodyS3).kafkaQueue
        = demoFullQueue := by
  have hq : LocationService.queueCapacity ≤ demoFullQueue.length := by
    show 1000 ≤ (List.replicate 1000 demoEventK).length
    rw [List.length_replicate]
  have happ := C9_bounded_queue_drop.2.2 demoEnvFullQueue demoBodyS3
    { sessionID := "s-3", latitude := 40, longitude := -74, timestamp := none }
    demoSessionS3 rfl rfl rfl rfl (by decide)
    (by norm_num) (by norm_num) (by norm_num) (by norm_num)
  exact ⟨C9_bounded_queue_drop.1 demoFullQueue demoEventK hq,
         happ.1, (happ.2.2 hq).1, (happ.2.2 hq).2⟩

/-- C10: a body whose latitude or longitude is the zero value, or which omits
the session id, fails the required-binding validation: the handler answers
400 "Invalid request format" before consulting the cache or the database,
and neither a location row nor a session write is produced — even though 0
is a geographically valid coordinate. -/
theorem C10_required_zero_binding (env : LocationService.HandlerEnv)
    (body : LocationService.LocationUpdateBody)
    (hzero : body.latitude = some 0 ∨ body.longitude = some 0 ∨
             body.sessionID = none) :
    LocationService.bindLocationUpdateRequest body = none
    ∧ (LocationService.handleLocationUpdate env body).status = 400
    ∧ (LocationService.handleLocationUpdate env body).message
        = "Invalid request format"
    ∧ (LocationService.handleLocationUpdate env body).sessionLookedUp = false
    ∧ (LocationService.handleLocationUpdate env body).insertedLocation = none
    ∧ (LocationService.handleLocationUpdate env body).savedSession = none := by
  have hbind : LocationService.bindLocationUpdateRequest body = none := by
    unfold LocationService.bindLocationUpdateRequest
    rcases hzero with h | h | h <;> simp [h]
  refine ⟨hbind, ?_, ?_, ?_, ?_, ?_⟩ <;>
    (unfold LocationService.handleLocationUpdate
     rw [hbind])

/-- Witness for C10 at the latitude-0 request against a fresh session. -/
theorem C10_required_zero_binding_witness :
    LocationService.bindLocationUpdateRequest demoBodyLat0 = none
    ∧ (LocationService.handleLocationUpdate demoEnvFresh demoBodyLat0).status = 400
    ∧ (LocationService.handleLocationUpdate demoEnvFresh demoBodyLat0).sessionLookedUp
        = false :=
  ⟨(C10_required_zero_binding demoEnvFresh demoBodyLat0 (Or.inl rfl)).1,
   (C10_required_zero_binding demoEnvFresh demoBodyLat0 (Or.inl rfl)).2.1,
   (C10_required_zero_binding demoEnvFresh demoBodyLat0 (Or.inl rfl)).2.2.2.1⟩
